import Mathlib

/-!
Shallow embedding of the scytale2parodus gateway (Go sources
`scytale2parodus.go` and `main.go`).

The gateway accepts an HTTP POST with a JSON body, validates the
`deviceID` path parameter against the regular expression
`^[0-9A-Fa-f]{12}$`, parses the body as a JSON object, conditionally
injects a freshly generated UUID as the JSON-RPC `id`, builds a WRP
envelope whose `TransactionUUID` is that same UUID, posts it to the
Scytale backend, and maps the backend reply onto the client response.

External collaborators (the JSON codec, the WRP msgpack codec, the HTTP
transport, the UUID generator, the random sampler) are modelled at
their interface boundary: parse / decode outcomes and the generated
UUID are inputs of the handler function, and the backend is a function
from the sent envelope to a reply.
-/

namespace Scytale2Parodus

/-- JSON values, modelling Go `encoding/json` dynamic values
(`map[string]any` entries).  Numbers are modelled as integers: the
claims only need values that are distinguishable from strings. -/
inductive Json where
  | null : Json
  | bool (b : Bool) : Json
  | num (n : Int) : Json
  | str (s : String) : Json
  | arr (elems : List Json) : Json
  | obj (fields : List (String × Json)) : Json

/-- Go map lookup `m[k]` on the association-list model of
`RpcRequest = map[string]any` (the first binding for a key wins;
`encoding/json` produces maps, so keys are unique). -/
def lookupJson : List (String × Json) → String → Option Json
  | [], _ => none
  | (k, v) :: rest, key => if k = key then some v else lookupJson rest key

/-- Go map assignment `m[k] = v`: replace the binding when the key is
present, append it otherwise. -/
def insertJson : List (String × Json) → String → Json → List (String × Json)
  | [], key, val => [(key, val)]
  | (k, v) :: rest, key, val =>
      if k = key then (key, val) :: rest else (k, v) :: insertJson rest key val

/-- `MaxBodySize = 1 << 20` from `scytale2parodus.go`. -/
def MaxBodySize : Nat := 1 <<< 20

/-- One hexadecimal character class `[0-9A-Fa-f]` of `deviceIdRegex`. -/
def isHexDigit (c : Char) : Bool :=
  (('0' ≤ c && c ≤ '9') || ('A' ≤ c && c ≤ 'F') || ('a' ≤ c && c ≤ 'f'))

/-- `deviceIdRegex = ^[0-9A-Fa-f]{12}$` from `scytale2parodus.go`:
a full match is exactly 12 hexadecimal characters. -/
def deviceIdRegex (s : String) : Bool :=
  s.length == 12 && s.data.all isHexDigit

/-- Outcome of running the request body (already truncated to
`MaxBodySize` by the limited reader) through the JSON syntax layer:
either a syntax error or a parsed JSON value.  `json.Unmarshal` into
`RpcRequest = map[string]any` then succeeds exactly on objects and on
the literal `null` (see `unmarshalRpc`). -/
inductive BodyParse where
  | malformed : BodyParse
  | value (j : Json) : BodyParse

/-- Whether the body parsed as a JSON object. -/
def isJsonObject : BodyParse → Bool
  | BodyParse.value (Json.obj _) => true
  | _ => false

/-- `json.Unmarshal` into `RpcRequest = map[string]any`: an object
fills the map; the JSON literal `null` is accepted with a nil error
and leaves the map nil (modelled `some none`); every other JSON value
is a type mismatch and errors (`none`). -/
def unmarshalRpc : Json → Option (Option (List (String × Json)))
  | Json.obj fields => some (some fields)
  | Json.null => some none
  | _ => none

/-- Whether `json.Unmarshal` into the `RpcRequest` map succeeds on
this body: no syntax error, and the value is an object or `null`. -/
def parseAccepted : BodyParse → Bool
  | BodyParse.malformed => false
  | BodyParse.value j => (unmarshalRpc j).isSome

/-- `json.Marshal` of the `RpcRequest` map: a nil map marshals to the
JSON literal `null`, a non-nil map to the corresponding object. -/
def marshalRpc : Option (List (String × Json)) → Json
  | none => Json.null
  | some fields => Json.obj fields

/-- Field lookup on a marshalled payload value: the payload carries
the key exactly when it is an object binding it. -/
def payloadField : Json → String → Option Json
  | Json.obj fields, k => lookupJson fields k
  | _, _ => none

/-- `wrp.SimpleRequestResponseMessageType` (numeric value 3 in wrp-go). -/
def SimpleRequestResponseMessageType : Nat := 3

/-- The outbound WRP envelope (`wrp.Message` as filled in by
`PostCallHandler`).  The payload is kept as the JSON value it is
marshalled from (`marshalRpc` of the possibly mutated map):
`json.Marshal` is an injective black-box serializer, so claims about
the payload bytes are stated on that value. -/
structure Message where
  msgType : Nat
  source : String
  destination : String
  contentType : String
  transactionUUID : String
  payload : Json

/-- Decode outcome for the backend reply body
(`wrp.NewDecoder(...).Decode`): either a msgpack decode failure or a
decoded `wrp.Message` of which the handler only uses the payload bytes. -/
inductive WireBody where
  | undecodable : WireBody
  | decoded (payload : List Nat) : WireBody

/-- Result of the outbound HTTP POST to Scytale.  `transportError`
covers `http.NewRequest` / `client.Do` failures (both answered with
503 and the same message); `reply` carries `resp.StatusCode`,
`resp.Status` (the status text) and the reply body. -/
inductive BackendResult where
  | transportError : BackendResult
  | reply (status : Nat) (statusText : String) (body : WireBody) : BackendResult

/-- What the handler writes back to the client: `httpError s m` models
`http.Error(w, m, s)`; `payload ct b` models the 200 path that sets
`Content-Type: ct` and writes the bytes `b`. -/
inductive ClientResponse where
  | httpError (status : Nat) (msg : String) : ClientResponse
  | payload (contentType : String) (body : List Nat) : ClientResponse

/-- The conditional JSON-RPC id injection of `PostCallHandler`
(lines 85-89): when `deviceRequest["jsonrpc"]` type-asserts to a
string, and `deviceRequest["id"]` either fails the string type
assertion (absent or non-string, `ok == false`) or is the empty
string, set `deviceRequest["id"] = requestID`. -/
def injectRequestId (m : List (String × Json)) (requestID : String) :
    List (String × Json) :=
  match lookupJson m "jsonrpc" with
  | some (Json.str _) =>
      match lookupJson m "id" with
      | some (Json.str s) =>
          if s = "" then insertJson m "id" (Json.str requestID) else m
      | _ => insertJson m "id" (Json.str requestID)
  | _ => m

/-- `DeviceServer.PostCallHandler` from `scytale2parodus.go`.

Inputs: the two path parameters, the parse outcome of the (truncated)
body, the UUID generated by `uuid.New().String()` (line 83), and the
backend as a function from the sent envelope to its result.

Output: the response written to the client, paired with the envelope
sent to the backend (`none` when the handler returns before building
and posting one).

A body that is the JSON literal `null` passes `json.Unmarshal` with a
nil map: the id-injection lines 85-89 then read the nil map (the
`jsonrpc` type assertion fails, so nothing is assigned and nothing
panics) — modelled by `Option.map`, which skips the nil map — and
`json.Marshal` of the nil map produces the payload `null`.

The `json.Marshal` error branch (500) and the WRP encode error branch
(500) are unreachable in this model: a value accepted by
`unmarshalRpc` always marshals and a well-formed `wrp.Message` always
encodes, so both are modelled as total. -/
def PostCallHandler (deviceID service : String) (body : BodyParse)
    (requestID : String) (backend : Message → BackendResult) :
    ClientResponse × Option Message :=
  if ¬ deviceIdRegex deviceID then
    (ClientResponse.httpError 400
      "Invalid device ID: must be a 12-character hexadecimal MAC address",
     none)
  else
    match body with
    | BodyParse.malformed =>
        (ClientResponse.httpError 400 "Failed to parse JSON", none)
    | BodyParse.value j =>
        match unmarshalRpc j with
        | none => (ClientResponse.httpError 400 "Failed to parse JSON", none)
        | some deviceRequest0 =>
            let deviceRequest :=
              deviceRequest0.map (fun fields => injectRequestId fields requestID)
            let wrpRequest : Message :=
              { msgType := SimpleRequestResponseMessageType
                source := "scytale2parodus"
                destination := "mac:" ++ deviceID ++ "/" ++ service
                contentType := "application/json"
                transactionUUID := requestID
                payload := marshalRpc deviceRequest }
            match backend wrpRequest with
            | BackendResult.transportError =>
                (ClientResponse.httpError 503 "Failed to post to Scytale",
                 some wrpRequest)
            | BackendResult.reply status statusText wbody =>
                if status < 200 ∨ 400 ≤ status then
                  (ClientResponse.httpError status
                    ("Scytale returned invalid status: " ++ statusText),
                   some wrpRequest)
                else
                  match wbody with
                  | WireBody.undecodable =>
                      (ClientResponse.httpError 400
                        "Failed to decode Scytale response",
                       some wrpRequest)
                  | WireBody.decoded payload =>
                      if payload.length = 0 then
                        (ClientResponse.httpError 502
                          "Empty response from Scytale",
                         some wrpRequest)
                      else
                        (ClientResponse.payload "application/json" payload,
                         some wrpRequest)

/-- Outcome of `rateLimitMiddleware` (main.go lines 122-136):
`abandoned` means the handler returned without writing anything,
`rejected` a response written by the middleware itself, `delegated`
means `next.ServeHTTP` ran and produced the wrapped handler's
response. -/
inductive RateLimitOutcome where
  | abandoned : RateLimitOutcome
  | rejected (status : Nat) (msg : String) : RateLimitOutcome
  | delegated (resp : ClientResponse) : RateLimitOutcome

/-- `rateLimitMiddleware` from `main.go`.  `waitErr` is whether
`limiter.Wait(r.Context())` returned a non-nil error; `ctxErr` is
whether `r.Context().Err()` is non-nil at the subsequent check (the
request's own cancellation has fired); `next` is the response the
wrapped handler produces when it runs. -/
def rateLimitMiddleware (waitErr ctxErr : Bool) (next : ClientResponse) :
    RateLimitOutcome :=
  if waitErr then
    if ctxErr then RateLimitOutcome.abandoned
    else RateLimitOutcome.rejected 429 "Too Many Requests"
  else RateLimitOutcome.delegated next

/-- One interaction of a handler with its `http.ResponseWriter`. -/
inductive WriterEvent where
  | writeHeader (code : Nat) : WriterEvent
  | write (bytes : List Nat) : WriterEvent

/-- The `responseWriter` wrapper of `main.go` (lines 202-217):
`statusCode` is the captured status, `events` the calls forwarded to
the underlying `http.ResponseWriter`. -/
structure RespWriter where
  statusCode : Nat
  events : List WriterEvent

/-- `responseWriter.WriteHeader`: record the code, forward the call. -/
def RespWriter.writeHeader (rw : RespWriter) (code : Nat) : RespWriter :=
  { statusCode := code, events := rw.events ++ [WriterEvent.writeHeader code] }

/-- `responseWriter.Write`: when no status was recorded yet
(`statusCode == 0`), emit `WriteHeader(200)` first, then forward the
write.  (The wrapper is constructed with `statusCode = 200`, so this
branch never fires for the middleware's own writer.) -/
def RespWriter.write (rw : RespWriter) (b : List Nat) : RespWriter :=
  let rw := if rw.statusCode = 0 then rw.writeHeader 200 else rw
  { rw with events := rw.events ++ [WriterEvent.write b] }

/-- Replay the wrapped handler's writer calls through the
`responseWriter` wrapper. -/
def runHandlerWrites (rw : RespWriter) : List WriterEvent → RespWriter
  | [] => rw
  | WriterEvent.writeHeader c :: rest => runHandlerWrites (rw.writeHeader c) rest
  | WriterEvent.write b :: rest => runHandlerWrites (rw.write b) rest

/-- The label vector `{handler, method, status, path}` used for both
Prometheus metric families. -/
structure MetricLabels where
  handler : String
  method : String
  status : String
  path : String
deriving DecidableEq

/-- The two process-wide metric families, modelled as per-label
counts: for `requestDuration` the number of `Observe` calls per label
(the observed wall-clock values are real time and are not modelled),
for `requestCounter` the counter value per label. -/
structure MetricsState where
  durationObs : List (MetricLabels × Nat)
  requestCount : List (MetricLabels × Nat)

/-- Increment a per-label count (`WithLabelValues(...).Inc` /
`.Observe`): bump the existing entry or start it at 1. -/
def bumpLabel : List (MetricLabels × Nat) → MetricLabels → List (MetricLabels × Nat)
  | [], l => [(l, 1)]
  | (k, n) :: rest, l =>
      if k = l then (k, n + 1) :: rest else (k, n) :: bumpLabel rest l

/-- `metricsMiddleware` from `main.go` (lines 139-151).  The wrapped
handler is given by the writer calls it performs; `sample` is the
outcome of the coin flip `rand.Float64() < 0.1`, evaluated after the
handler completes.  Returns the wrapper writer after the handler ran
(its `events` are what reached the client) and the updated metrics
state. -/
def metricsMiddleware (handlerName method path : String) (sample : Bool)
    (handlerEvents : List WriterEvent) (st : MetricsState) :
    RespWriter × MetricsState :=
  let rw := runHandlerWrites { statusCode := 200, events := [] } handlerEvents
  if sample then
    let labels : MetricLabels :=
      { handler := handlerName, method := method,
        status := toString rw.statusCode, path := path }
    (rw, { durationObs := bumpLabel st.durationObs labels,
           requestCount := bumpLabel st.requestCount labels })
  else
    (rw, st)

/-! ### Helper lemmas -/

/-- Looking up the key just assigned returns the assigned value. -/
theorem lookupJson_insertJson_self (m : List (String × Json)) (k : String)
    (v : Json) : lookupJson (insertJson m k v) k = some v := by
  induction m with
  | nil => simp [insertJson, lookupJson]
  | cons hd tl ih =>
      obtain ⟨k1, v1⟩ := hd
      by_cases h : k1 = k <;> simp [insertJson, lookupJson, h, ih]

/-- Once the device id is valid and the body is a JSON object, the
handler builds and posts exactly one envelope: message type, source,
destination, content type, transaction id and payload as set on lines
104-111, whatever the backend then does. -/
theorem postCall_envelope (deviceID service : String)
    (fields : List (String × Json)) (requestID : String)
    (backend : Message → BackendResult)
    (hdev : deviceIdRegex deviceID = true) :
    (PostCallHandler deviceID service (BodyParse.value (Json.obj fields))
        requestID backend).2 =
      some { msgType := SimpleRequestResponseMessageType
             source := "scytale2parodus"
             destination := "mac:" ++ deviceID ++ "/" ++ service
             contentType := "application/json"
             transactionUUID := requestID
             payload := Json.obj (injectRequestId fields requestID) } := by
  unfold PostCallHandler
  rcases hB : backend { msgType := SimpleRequestResponseMessageType
                        source := "scytale2parodus"
                        destination := "mac:" ++ deviceID ++ "/" ++ service
                        contentType := "application/json"
                        transactionUUID := requestID
                        payload := Json.obj (injectRequestId fields requestID) }
      with _ | ⟨status, statusText, wbody⟩
  · simp [hdev, unmarshalRpc, marshalRpc, hB]
  · by_cases hs : status < 200 ∨ 400 ≤ status
    · simp [hdev, unmarshalRpc, marshalRpc, hB, hs]
    · rcases wbody with _ | payload
      · simp [hdev, unmarshalRpc, marshalRpc, hB, hs]
      · by_cases hp : payload.length = 0 <;>
          simp [hdev, unmarshalRpc, marshalRpc, hB, hs, hp]

/-- When the device id is valid and the body is the JSON literal
`null`, `json.Unmarshal` accepts it with a nil map and the handler
builds and posts an envelope whose payload is `null` (the marshal of
the nil map). -/
theorem postCall_nilmap_envelope (deviceID service requestID : String)
    (backend : Message → BackendResult)
    (hdev : deviceIdRegex deviceID = true) :
    (PostCallHandler deviceID service (BodyParse.value Json.null)
        requestID backend).2 =
      some { msgType := SimpleRequestResponseMessageType
             source := "scytale2parodus"
             destination := "mac:" ++ deviceID ++ "/" ++ service
             contentType := "application/json"
             transactionUUID := requestID
             payload := Json.null } := by
  unfold PostCallHandler
  rcases hB : backend { msgType := SimpleRequestResponseMessageType
                        source := "scytale2parodus"
                        destination := "mac:" ++ deviceID ++ "/" ++ service
                        contentType := "application/json"
                        transactionUUID := requestID
                        payload := Json.null }
      with _ | ⟨status, statusText, wbody⟩
  · simp [hdev, unmarshalRpc, marshalRpc, hB]
  · by_cases hs : status < 200 ∨ 400 ≤ status
    · simp [hdev, unmarshalRpc, marshalRpc, hB, hs]
    · rcases wbody with _ | payload
      · simp [hdev, unmarshalRpc, marshalRpc, hB, hs]
      · by_cases hp : payload.length = 0 <;>
          simp [hdev, unmarshalRpc, marshalRpc, hB, hs, hp]

/-! ### Claim theorems -/

/-- Claim C1: for every request whose body is a JSON object with a
string-valued `jsonrpc` key and whose `id` key is absent or the empty
string, the handler inserts the freshly generated correlator as the
object's `id`, and that inserted `id` equals the `TransactionUUID` of
the outbound envelope — both are the single `requestID` generated once
for the request. -/
theorem jsonrpc_id_fallback_equals_transaction_uuid
    (deviceID service : String) (fields : List (String × Json))
    (requestID : String) (backend : Message → BackendResult)
    (hdev : deviceIdRegex deviceID = true)
    (hrpc : ∃ v, lookupJson fields "jsonrpc" = some (Json.str v))
    (hid : lookupJson fields "id" = none ∨
           lookupJson fields "id" = some (Json.str "")) :
    ∃ env : Message,
      (PostCallHandler deviceID service (BodyParse.value (Json.obj fields))
          requestID backend).2 = some env ∧
      payloadField env.payload "id" = some (Json.str requestID) ∧
      env.transactionUUID = requestID := by
  refine ⟨_, postCall_envelope deviceID service fields requestID backend hdev,
    ?_, rfl⟩
  show lookupJson (injectRequestId fields requestID) "id" = _
  obtain ⟨v, hv⟩ := hrpc
  unfold injectRequestId
  rw [hv]
  rcases hid with h | h <;> rw [h] <;> simp [lookupJson_insertJson_self]

/-- Witness for C1 at the body from the spec's test table,
`deviceID = "001122334455"`, generated correlator `"uuid-1"`. -/
theorem jsonrpc_id_fallback_equals_transaction_uuid_witness :
    ∃ env : Message,
      (PostCallHandler "001122334455" "svc"
          (BodyParse.value (Json.obj
            [("jsonrpc", Json.str "2.0"), ("method", Json.str "x")]))
          "uuid-1" (fun _ => BackendResult.transportError)).2 = some env ∧
      payloadField env.payload "id" = some (Json.str "uuid-1") ∧
      env.transactionUUID = "uuid-1" :=
  jsonrpc_id_fallback_equals_transaction_uuid "001122334455" "svc" _ "uuid-1" _
    (by decide) ⟨"2.0", by simp [lookupJson]⟩ (Or.inl (by simp [lookupJson]))

/-- Counterexample to claim C2 as stated: for the body
`obj [jsonrpc ↦ "2.0", id ↦ 5]` (a non-empty, non-string `id`), the
envelope payload's `id` is the generated correlator `"r0"`, not the
original `5`: the string type assertion on `deviceRequest["id"]` fails
(`ok == false`), so line 87 overwrites the `id`. -/
theorem nonstring_id_overwritten_counterexample :
    (PostCallHandler "001122334455" "svc"
        (BodyParse.value (Json.obj
          [("jsonrpc", Json.str "2.0"), ("id", Json.num 5)]))
        "r0" (fun _ => BackendResult.transportError)).2.map
      (fun env => payloadField env.payload "id") =
      some (some (Json.str "r0")) ∧
    (PostCallHandler "001122334455" "svc"
        (BodyParse.value (Json.obj
          [("jsonrpc", Json.str "2.0"), ("id", Json.num 5)]))
        "r0" (fun _ => BackendResult.transportError)).2.map
      (fun env => payloadField env.payload "id") ≠
      some (some (Json.num 5)) := by
  constructor
  · rfl
  · intro h
    have h2 : (some (some (Json.str "r0")) : Option (Option Json)) =
        some (some (Json.num 5)) := h
    simp at h2

/-- Claim C2 (amended): with a string-valued `jsonrpc` key, an `id`
that is present with a non-empty string value is left untouched — the
envelope payload is the parsed object unchanged and no correlator is
injected.  (A present non-string `id` is instead overwritten with the
correlator, see the counterexample.) -/
theorem nonempty_string_id_untouched
    (deviceID service : String) (fields : List (String × Json))
    (requestID : String) (backend : Message → BackendResult) (s : String)
    (hdev : deviceIdRegex deviceID = true)
    (hrpc : ∃ v, lookupJson fields "jsonrpc" = some (Json.str v))
    (hid : lookupJson fields "id" = some (Json.str s))
    (hne : s ≠ "") :
    ∃ env : Message,
      (PostCallHandler deviceID service (BodyParse.value (Json.obj fields))
          requestID backend).2 = some env ∧
      env.payload = Json.obj fields := by
  refine ⟨_, postCall_envelope deviceID service fields requestID backend hdev,
    ?_⟩
  show Json.obj (injectRequestId fields requestID) = Json.obj fields
  obtain ⟨v, hv⟩ := hrpc
  unfold injectRequestId
  rw [hv, hid]
  simp [hne]

/-- Witness for the amended C2 at the spec's test body
`obj [jsonrpc ↦ "2.0", id ↦ "myid", method ↦ "x"]`. -/
theorem nonempty_string_id_untouched_witness :
    ∃ env : Message,
      (PostCallHandler "001122334455" "svc"
          (BodyParse.value (Json.obj
            [("jsonrpc", Json.str "2.0"), ("id", Json.str "myid"),
             ("method", Json.str "x")]))
          "uuid-2" (fun _ => BackendResult.transportError)).2 = some env ∧
      env.payload = Json.obj
        [("jsonrpc", Json.str "2.0"), ("id", Json.str "myid"),
         ("method", Json.str "x")] :=
  nonempty_string_id_untouched "001122334455" "svc" _ "uuid-2" _ "myid"
    (by decide) ⟨"2.0", by simp [lookupJson]⟩ (by simp [lookupJson])
    (by decide)

/-- Claim C3: a `deviceID` that is not exactly 12 hexadecimal
characters makes the send endpoint answer 400, for every body,
correlator and backend, and no envelope is built or posted (second
component `none`). -/
theorem invalid_device_id_rejected
    (deviceID : String)
    (hdev : ¬ (deviceID.length = 12 ∧ deviceID.data.all isHexDigit = true))
    (service : String) (body : BodyParse) (requestID : String)
    (backend : Message → BackendResult) :
    PostCallHandler deviceID service body requestID backend =
      (ClientResponse.httpError 400
        "Invalid device ID: must be a 12-character hexadecimal MAC address",
       none) := by
  have h : ¬ deviceIdRegex deviceID = true := by
    simpa [deviceIdRegex] using hdev
  unfold PostCallHandler
  simp [h]

/-- Witness for C3 at `deviceID = "00112233445Z"` (12 characters but
not all hexadecimal). -/
theorem invalid_device_id_rejected_witness :
    PostCallHandler "00112233445Z" "svc"
        (BodyParse.value (Json.obj [("jsonrpc", Json.str "2.0")])) "uuid-3"
        (fun _ => BackendResult.transportError) =
      (ClientResponse.httpError 400
        "Invalid device ID: must be a 12-character hexadecimal MAC address",
       none) :=
  invalid_device_id_rejected "00112233445Z" (by decide) "svc" _ "uuid-3" _

/-- Claim C4: a backend reply whose status lies outside [200,400) is
answered with exactly that backend status code and the descriptive
message built from the backend's status text; the conclusion holds for
every reply body `wbody`, so the reply body is never decoded (lines
138-144 return before the decoder runs). -/
theorem backend_error_status_passthrough
    (deviceID service : String) (fields : List (String × Json))
    (requestID : String) (status : Nat) (statusText : String)
    (hdev : deviceIdRegex deviceID = true)
    (hs : status < 200 ∨ 400 ≤ status) :
    ∀ wbody : WireBody,
      (PostCallHandler deviceID service (BodyParse.value (Json.obj fields))
          requestID
          (fun _ => BackendResult.reply status statusText wbody)).1 =
        ClientResponse.httpError status
          ("Scytale returned invalid status: " ++ statusText) := by
  intro wbody
  unfold PostCallHandler
  simp [hdev, hs, unmarshalRpc]

/-- Witness for C4: backend status 500 with an undecodable body is
passed through as a client 500. -/
theorem backend_error_status_passthrough_witness :
    (PostCallHandler "001122334455" "svc"
        (BodyParse.value (Json.obj [("jsonrpc", Json.str "2.0")])) "uuid-4"
        (fun _ => BackendResult.reply 500 "500 Internal Server Error"
          WireBody.undecodable)).1 =
      ClientResponse.httpError 500
        ("Scytale returned invalid status: " ++ "500 Internal Server Error") :=
  backend_error_status_passthrough "001122334455" "svc" _ "uuid-4" 500
    "500 Internal Server Error" (by decide) (by decide) WireBody.undecodable

/-- Claim C5: a backend reply with status in [200,400) whose body
decodes: an empty decoded payload is answered 502; a non-empty one is
answered with the 200 path — content type `application/json` and the
decoded payload bytes unchanged. -/
theorem backend_success_payload_passthrough
    (deviceID service : String) (fields : List (String × Json))
    (requestID : String) (status : Nat) (statusText : String)
    (payload : List Nat)
    (hdev : deviceIdRegex deviceID = true)
    (hs : 200 ≤ status ∧ status < 400) :
    (payload = [] →
      (PostCallHandler deviceID service (BodyParse.value (Json.obj fields))
          requestID
          (fun _ => BackendResult.reply status statusText
            (WireBody.decoded payload))).1 =
        ClientResponse.httpError 502 "Empty response from Scytale") ∧
    (payload ≠ [] →
      (PostCallHandler deviceID service (BodyParse.value (Json.obj fields))
          requestID
          (fun _ => BackendResult.reply status statusText
            (WireBody.decoded payload))).1 =
        ClientResponse.payload "application/json" payload) := by
  have hs2 : ¬ (status < 200 ∨ 400 ≤ status) := by omega
  constructor <;> intro hp <;> unfold PostCallHandler <;>
    simp [hdev, hs2, hp, unmarshalRpc]

/-- Witness for C5: backend status 200; the empty payload yields 502
and the payload `[123]` is passed through byte-for-byte. -/
theorem backend_success_payload_passthrough_witness :
    (PostCallHandler "001122334455" "svc"
        (BodyParse.value (Json.obj [("jsonrpc", Json.str "2.0")])) "uuid-5"
        (fun _ => BackendResult.reply 200 "200 OK"
          (WireBody.decoded []))).1 =
      ClientResponse.httpError 502 "Empty response from Scytale" ∧
    (PostCallHandler "001122334455" "svc"
        (BodyParse.value (Json.obj [("jsonrpc", Json.str "2.0")])) "uuid-5"
        (fun _ => BackendResult.reply 200 "200 OK"
          (WireBody.decoded [123]))).1 =
      ClientResponse.payload "application/json" [123] :=
  ⟨(backend_success_payload_passthrough "001122334455" "svc" _ "uuid-5" 200
      "200 OK" [] (by decide) (by decide)).1 rfl,
   (backend_success_payload_passthrough "001122334455" "svc" _ "uuid-5" 200
      "200 OK" [123] (by decide) (by decide)).2 (by decide)⟩

/-- Claim C6: a backend reply with status in [200,400) whose body
fails to decode is answered 400 — a client-error code although the
fault is in the backend's reply. -/
theorem backend_undecodable_reply_maps_to_400
    (deviceID service : String) (fields : List (String × Json))
    (requestID : String) (status : Nat) (statusText : String)
    (hdev : deviceIdRegex deviceID = true)
    (hs : 200 ≤ status ∧ status < 400) :
    (PostCallHandler deviceID service (BodyParse.value (Json.obj fields))
        requestID
        (fun _ => BackendResult.reply status statusText
          WireBody.undecodable)).1 =
      ClientResponse.httpError 400 "Failed to decode Scytale response" := by
  have hs2 : ¬ (status < 200 ∨ 400 ≤ status) := by omega
  unfold PostCallHandler
  simp [hdev, hs2, unmarshalRpc]

/-- Witness for C6 at backend status 200. -/
theorem backend_undecodable_reply_maps_to_400_witness :
    (PostCallHandler "001122334455" "svc"
        (BodyParse.value (Json.obj [("jsonrpc", Json.str "2.0")])) "uuid-6"
        (fun _ => BackendResult.reply 200 "200 OK"
          WireBody.undecodable)).1 =
      ClientResponse.httpError 400 "Failed to decode Scytale response" :=
  backend_undecodable_reply_maps_to_400 "001122334455" "svc" _ "uuid-6" 200
    "200 OK" (by decide) (by decide)

/-- Counterexample to claim C7 as stated: the body that is the JSON
literal `null` is not a JSON object, yet `json.Unmarshal` into
`map[string]any` accepts it with a nil error (the map stays nil), so
the handler does not answer 400 — it builds and posts an envelope
whose payload is `null` (the marshal of the nil map), and the client
response is determined by the backend (here 503 on transport error). -/
theorem null_body_accepted_counterexample :
    isJsonObject (BodyParse.value Json.null) = false ∧
    PostCallHandler "001122334455" "svc" (BodyParse.value Json.null)
        "uuid-null" (fun _ => BackendResult.transportError) =
      (ClientResponse.httpError 503 "Failed to post to Scytale",
       some { msgType := SimpleRequestResponseMessageType
              source := "scytale2parodus"
              destination := "mac:001122334455/svc"
              contentType := "application/json"
              transactionUUID := "uuid-null"
              payload := Json.null }) ∧
    PostCallHandler "001122334455" "svc" (BodyParse.value Json.null)
        "uuid-null" (fun _ => BackendResult.transportError) ≠
      (ClientResponse.httpError 400 "Failed to parse JSON", none) := by
  have base :
      PostCallHandler "001122334455" "svc" (BodyParse.value Json.null)
          "uuid-null" (fun _ => BackendResult.transportError) =
        (ClientResponse.httpError 503 "Failed to post to Scytale",
         some { msgType := SimpleRequestResponseMessageType
                source := "scytale2parodus"
                destination := "mac:001122334455/svc"
                contentType := "application/json"
                transactionUUID := "uuid-null"
                payload := Json.null }) := rfl
  refine ⟨rfl, base, ?_⟩
  rw [base]
  simp

/-- Claim C7 (amended): after the size-capped read, a body the
unmarshal step rejects — a syntax error, or a JSON value that is
neither an object nor the literal `null` — is answered 400 with the
parse-failure message and no envelope is built; conversely, every body
the unmarshal step accepts (a JSON object, or `null`, which yields the
nil map) proceeds past parsing — an envelope is built and posted. -/
theorem body_unmarshal_gate
    (deviceID service requestID : String)
    (backend : Message → BackendResult)
    (hdev : deviceIdRegex deviceID = true) :
    (∀ body : BodyParse, parseAccepted body = false →
        PostCallHandler deviceID service body requestID backend =
          (ClientResponse.httpError 400 "Failed to parse JSON", none)) ∧
    (∀ body : BodyParse, parseAccepted body = true →
        ∃ env : Message,
          (PostCallHandler deviceID service body requestID backend).2 =
            some env) := by
  constructor
  · intro body hb
    unfold PostCallHandler
    rcases body with _ | j
    · simp [hdev]
    · rcases j with _ | b | n | s | es | fs
      · simp [parseAccepted, unmarshalRpc] at hb
      · simp [hdev, unmarshalRpc]
      · simp [hdev, unmarshalRpc]
      · simp [hdev, unmarshalRpc]
      · simp [hdev, unmarshalRpc]
      · simp [parseAccepted, unmarshalRpc] at hb
  · intro body hb
    rcases body with _ | j
    · simp [parseAccepted] at hb
    · rcases j with _ | b | n | s | es | fs
      · exact ⟨_, postCall_nilmap_envelope deviceID service requestID
          backend hdev⟩
      · simp [parseAccepted, unmarshalRpc] at hb
      · simp [parseAccepted, unmarshalRpc] at hb
      · simp [parseAccepted, unmarshalRpc] at hb
      · simp [parseAccepted, unmarshalRpc] at hb
      · exact ⟨_, postCall_envelope deviceID service fs requestID
          backend hdev⟩

/-- Witness for the amended C7: a bare JSON string body is answered
with the parse error, and an object body produces an envelope. -/
theorem body_unmarshal_gate_witness :
    PostCallHandler "001122334455" "svc" (BodyParse.value (Json.str "hi"))
        "uuid-7" (fun _ => BackendResult.transportError) =
      (ClientResponse.httpError 400 "Failed to parse JSON", none) ∧
    ∃ env : Message,
      (PostCallHandler "001122334455" "svc"
          (BodyParse.value (Json.obj [("method", Json.str "x")])) "uuid-7"
          (fun _ => BackendResult.transportError)).2 = some env :=
  ⟨(body_unmarshal_gate "001122334455" "svc" "uuid-7"
      (fun _ => BackendResult.transportError) (by decide)).1
      (BodyParse.value (Json.str "hi")) rfl,
   (body_unmarshal_gate "001122334455" "svc" "uuid-7"
      (fun _ => BackendResult.transportError) (by decide)).2
      (BodyParse.value (Json.obj [("method", Json.str "x")])) rfl⟩

/-- Claim C8: when the object has no `jsonrpc` key, or a non-string
`jsonrpc` value, no `id` is injected and no field is altered: the
envelope payload is exactly the parsed object. -/
theorem no_jsonrpc_key_no_injection
    (deviceID service : String) (fields : List (String × Json))
    (requestID : String) (backend : Message → BackendResult)
    (hdev : deviceIdRegex deviceID = true)
    (hrpc : ∀ s : String, lookupJson fields "jsonrpc" ≠ some (Json.str s)) :
    ∃ env : Message,
      (PostCallHandler deviceID service (BodyParse.value (Json.obj fields))
          requestID backend).2 = some env ∧
      env.payload = Json.obj fields := by
  refine ⟨_, postCall_envelope deviceID service fields requestID backend hdev,
    ?_⟩
  show Json.obj (injectRequestId fields requestID) = Json.obj fields
  congr 1
  unfold injectRequestId
  rcases hj : lookupJson fields "jsonrpc" with _ | j
  · rfl
  · rcases j with _ | b | n | s | es | fs
    · rfl
    · rfl
    · rfl
    · exact absurd hj (hrpc s)
    · rfl
    · rfl

/-- Witness for C8 at the body `obj [method ↦ "x", id ↦ 7]` (no
`jsonrpc` key, and an `id` that must survive unchanged). -/
theorem no_jsonrpc_key_no_injection_witness :
    ∃ env : Message,
      (PostCallHandler "001122334455" "svc"
          (BodyParse.value (Json.obj
            [("method", Json.str "x"), ("id", Json.num 7)]))
          "uuid-8" (fun _ => BackendResult.transportError)).2 = some env ∧
      env.payload = Json.obj [("method", Json.str "x"), ("id", Json.num 7)] :=
  no_jsonrpc_key_no_injection "001122334455" "svc" _ "uuid-8" _ (by decide)
    (by intro s h; simp [lookupJson] at h)

/-- Claim C9: at the admission-control wait — when the limiter wait
errs and the request's cancellation has fired, the request is
abandoned with no response written; when the wait errs without
cancellation, the client gets 429; when the wait succeeds, the
wrapped handler runs and its response stands, whatever the context's
state afterwards. -/
theorem rate_limit_wait_outcomes (next : ClientResponse) :
    rateLimitMiddleware true true next = RateLimitOutcome.abandoned ∧
    rateLimitMiddleware true false next =
      RateLimitOutcome.rejected 429 "Too Many Requests" ∧
    ∀ ctxErr : Bool,
      rateLimitMiddleware false ctxErr next =
        RateLimitOutcome.delegated next :=
  ⟨rfl, rfl, fun _ => rfl⟩

/-- Claim C10: the response the metrics middleware forwards to the
client is the same whether or not the probability-p sample is taken;
the coin flip only decides whether one duration observation and one
counter increment (both under the label vector built from the captured
final status) are recorded. -/
theorem metrics_sampling_does_not_affect_response
    (handlerName method path : String) (handlerEvents : List WriterEvent)
    (st : MetricsState) :
    (∀ s1 s2 : Bool,
        (metricsMiddleware handlerName method path s1 handlerEvents st).1 =
        (metricsMiddleware handlerName method path s2 handlerEvents st).1) ∧
    (metricsMiddleware handlerName method path false handlerEvents st).2 =
      st ∧
    (metricsMiddleware handlerName method path true handlerEvents st).2 =
      { durationObs := bumpLabel st.durationObs
          { handler := handlerName, method := method,
            status := toString (runHandlerWrites
              { statusCode := 200, events := [] } handlerEvents).statusCode,
            path := path },
        requestCount := bumpLabel st.requestCount
          { handler := handlerName, method := method,
            status := toString (runHandlerWrites
              { statusCode := 200, events := [] } handlerEvents).statusCode,
            path := path } } := by
  refine ⟨?_, rfl, rfl⟩
  intro s1 s2
  cases s1 <;> cases s2 <;> rfl

end Scytale2Parodus
